import Mathlib

/-!
Verification development for the `websocket` blueprint
(`src/blueprints/websocket.py` of the openalgo repository).

The blueprint is a set of stateless HTTP request handlers that delegate to
collaborator functions.  We embed each handler as a pure Lean function from
a collaborator environment (`Env`) and the request data to a `Response`
together with the list of collaborator calls it performed (`CallEvent`).
-/

/-- JSON-like values, the bodies produced by `jsonify`. -/
inductive Json where
  | null : Json
  | str : String → Json
  | num : Int → Json
  | bool : Bool → Json
  | arr : List Json → Json
  | obj : List (String × Json) → Json

/-- A parsed symbol reference: the dict `\x7b'exchange': e, 'symbol': s\x7d`
built by `_get_broker_and_parse_symbols`. -/
structure ParsedSymbol where
  exchange : String
  symbol : String
deriving DecidableEq

/-- A record returned by `enhanced_search_symbols` (fields read by `search`). -/
structure SymbolRecord where
  symbol : String
  name : String
  exchange : String
  token : String
  instrumenttype : String
deriving DecidableEq

/-- Observable side effects: each collaborator invocation, and error logging. -/
inductive CallEvent where
  | enhancedSearchSymbols (query : String) (exchange : Option String)
  | getApiKeyForTradingview (user : String)
  | getBrokerName (key : String)
  | subscribeToSymbols (user : String) (broker : String) (syms : List ParsedSymbol)
  | unsubscribeFromSymbols (user : String) (broker : String) (syms : List ParsedSymbol)
  | getWebsocketSubscriptions (user : String)
  | getWebsocketStatus (user : String)
  | registerMarketDataCallback (user : String)
  | logError (msg : String)

/-- An HTTP response: body and status code. -/
structure Response where
  body : Json
  status : Nat

/-- The collaborator environment: the behaviour of every external function
the blueprint calls.  Fallible lookups return `Option`; the search
collaborator may raise (modelled with `Except`, the error carrying
`str(e)`); the websocket-service calls return `(success, payload, status)`. -/
structure Env where
  get_api_key_for_tradingview : String → Option String
  get_broker_name : String → Option String
  enhanced_search_symbols : String → Option String → Except String (List SymbolRecord)
  subscribe_to_symbols : String → String → List ParsedSymbol → Bool × Json × Nat
  unsubscribe_from_symbols : String → String → List ParsedSymbol → Bool × Json × Nat
  get_websocket_subscriptions : String → Bool × Json × Nat
  get_websocket_status : String → Bool × Json × Nat

/-- Python truthiness of a possibly-absent string (`if not username`):
`None` and the empty string are falsy. -/
def pyTruthy (u : Option String) : Option String :=
  match u with
  | none => none
  | some s => if s = "" then none else some s

/-- Python whitespace characters stripped by `str.strip()` (ASCII range). -/
def pyIsSpace (c : Char) : Bool :=
  c = ' ' || c = '\t' || c = '\n' || c = '\r' || c = '\x0b' || c = '\x0c'

/-- `str.strip()`: remove leading and trailing whitespace. -/
def strip (s : String) : String :=
  ⟨((s.data.dropWhile pyIsSpace).reverse.dropWhile pyIsSpace).reverse⟩

/-- `s.split(sep, 1)` on character lists: `none` when `sep` does not occur
(Python `sep in s` is false), otherwise the pieces before and after the
first occurrence. -/
def splitFirst (sep : Char) : List Char → Option (List Char × List Char)
  | [] => none
  | c :: cs =>
      if c = sep then some ([], cs)
      else
        match splitFirst sep cs with
        | none => none
        | some (a, b) => some (c :: a, b)

/-- One iteration of the parsing loop in `_get_broker_and_parse_symbols`:
`if ':' in s: exchange, symbol = s.split(':', 1)` else default to `'NSE'`. -/
def parseOne (s : String) : ParsedSymbol :=
  match splitFirst ':' s.data with
  | some (a, b) => { exchange := ⟨a⟩, symbol := ⟨b⟩ }
  | none => { exchange := "NSE", symbol := s }

/-- The parsing loop of `_get_broker_and_parse_symbols` over the whole list. -/
def parse_symbols (symbols_list : List String) : List ParsedSymbol :=
  symbols_list.map parseOne

/-- `_get_broker_and_parse_symbols(username, symbols_list)`: resolves the
API key, then the broker (Python `if not api_key` / `if not broker` treat
`None` and `""` as missing), then parses the symbols.  Returns the calls
performed and either the error message or `(broker, parsed_symbols)`. -/
def _get_broker_and_parse_symbols (env : Env) (username : String)
    (symbols_list : List String) :
    List CallEvent × Except String (String × List ParsedSymbol) :=
  match pyTruthy (env.get_api_key_for_tradingview username) with
  | none => ([CallEvent.getApiKeyForTradingview username], Except.error "API Key not found")
  | some api_key =>
      match pyTruthy (env.get_broker_name api_key) with
      | none =>
          ([CallEvent.getApiKeyForTradingview username, CallEvent.getBrokerName api_key],
           Except.error "Broker not found")
      | some broker =>
          ([CallEvent.getApiKeyForTradingview username, CallEvent.getBrokerName api_key],
           Except.ok (broker, parse_symbols symbols_list))

/-- The `index` view body: renders the page, and when a session user exists
first registers the market-data callback for that user. -/
def index_handler (username : Option String) : Response × List CallEvent :=
  match pyTruthy username with
  | some user =>
      ({ body := Json.str "websocket.html", status := 200 },
       [CallEvent.registerMarketDataCallback user])
  | none => ({ body := Json.str "websocket.html", status := 200 }, [])

/-- The `search` view body: strips the `q` argument (default `''`), returns
`[]` when it is empty, otherwise calls `enhanced_search_symbols` and
serialises the records; an exception is logged and mapped to a 500 with
an `error` field. -/
def search_handler (env : Env) (q_arg : Option String) (exchange_arg : Option String) :
    Response × List CallEvent :=
  let query := strip (q_arg.getD "")
  if query = "" then
    ({ body := Json.arr [], status := 200 }, [])
  else
    match env.enhanced_search_symbols query exchange_arg with
    | Except.ok results =>
        let resultsBody := Json.arr (results.map (fun r =>
              Json.obj [("symbol", Json.str r.symbol), ("name", Json.str r.name),
                        ("exchange", Json.str r.exchange), ("token", Json.str r.token),
                        ("instrumenttype", Json.str r.instrumenttype)]))
        ({ body := resultsBody, status := 200 },
         [CallEvent.enhancedSearchSymbols query exchange_arg])
    | Except.error e =>
        ({ body := Json.obj [("error", Json.str e)], status := 500 },
         [CallEvent.enhancedSearchSymbols query exchange_arg,
          CallEvent.logError ("Error searching symbols: " ++ e)])

/-- The `get_subscriptions` view body: 401 without a truthy session user;
otherwise returns the collaborator payload, with the collaborator status
code only on failure (`jsonify(data)` alone is a 200). -/
def get_subscriptions_handler (env : Env) (username : Option String) :
    Response × List CallEvent :=
  match pyTruthy username with
  | none => ({ body := Json.obj [("error", Json.str "User not logged in")], status := 401 }, [])
  | some user =>
      let r := env.get_websocket_subscriptions user
      if r.1 then
        ({ body := r.2.1, status := 200 }, [CallEvent.getWebsocketSubscriptions user])
      else
        ({ body := r.2.1, status := r.2.2 }, [CallEvent.getWebsocketSubscriptions user])

/-- The `subscribe` view body: 401 without a truthy session user, 400 on an
empty `symbols` list (`data.get('symbols', [])`), 400 on resolution
failure, else delegates to `subscribe_to_symbols` and mirrors its
payload and status code (the success flag is ignored). -/
def subscribe_handler (env : Env) (username : Option String)
    (body_symbols : Option (List String)) : Response × List CallEvent :=
  match pyTruthy username with
  | none => ({ body := Json.obj [("error", Json.str "User not logged in")], status := 401 }, [])
  | some user =>
      let symbols := body_symbols.getD []
      if symbols = [] then
        ({ body := Json.obj [("error", Json.str "No symbols provided")], status := 400 }, [])
      else
        match _get_broker_and_parse_symbols env user symbols with
        | (trace, Except.error msg) =>
            ({ body := Json.obj [("error", Json.str msg)], status := 400 }, trace)
        | (trace, Except.ok (broker, parsed)) =>
            let r := env.subscribe_to_symbols user broker parsed
            ({ body := r.2.1, status := r.2.2 },
             trace ++ [CallEvent.subscribeToSymbols user broker parsed])

/-- The `unsubscribe` view body: identical contract to `subscribe`, but
delegating to `unsubscribe_from_symbols`. -/
def unsubscribe_handler (env : Env) (username : Option String)
    (body_symbols : Option (List String)) : Response × List CallEvent :=
  match pyTruthy username with
  | none => ({ body := Json.obj [("error", Json.str "User not logged in")], status := 401 }, [])
  | some user =>
      let symbols := body_symbols.getD []
      if symbols = [] then
        ({ body := Json.obj [("error", Json.str "No symbols provided")], status := 400 }, [])
      else
        match _get_broker_and_parse_symbols env user symbols with
        | (trace, Except.error msg) =>
            ({ body := Json.obj [("error", Json.str msg)], status := 400 }, trace)
        | (trace, Except.ok (broker, parsed)) =>
            let r := env.unsubscribe_from_symbols user broker parsed
            ({ body := r.2.1, status := r.2.2 },
             trace ++ [CallEvent.unsubscribeFromSymbols user broker parsed])

/-- The `status` view body: 401 without a truthy session user; otherwise
mirrors the collaborator payload and status code. -/
def status_handler (env : Env) (username : Option String) : Response × List CallEvent :=
  match pyTruthy username with
  | none => ({ body := Json.obj [("error", Json.str "User not logged in")], status := 401 }, [])
  | some user =>
      let r := env.get_websocket_status user
      ({ body := r.2.1, status := r.2.2 }, [CallEvent.getWebsocketStatus user])

/-- Modelled from the spec: the decorator `check_session_validity`
(`utils.session`) is not part of the source fragment; per the spec, an
unauthenticated request to a session-guarded route returns 401 and performs
no collaborator calls; otherwise the wrapped view runs with the session. -/
def check_session_validity (handler : Option String → Response × List CallEvent)
    (session_user : Option String) : Response × List CallEvent :=
  match session_user with
  | none => ({ body := Json.obj [("error", Json.str "Unauthorized")], status := 401 }, [])
  | some u => handler (some u)

/-- GET `/websocket/` as routed: the session guard around `index`. -/
def index_route (session_user : Option String) : Response × List CallEvent :=
  check_session_validity index_handler session_user

/-- GET `/websocket/search` as routed: the session guard around `search`. -/
def search_route (env : Env) (session_user : Option String)
    (q_arg : Option String) (exchange_arg : Option String) : Response × List CallEvent :=
  check_session_validity (fun _ => search_handler env q_arg exchange_arg) session_user

/-- GET `/websocket/subscriptions` as routed. -/
def subscriptions_route (env : Env) (session_user : Option String) :
    Response × List CallEvent :=
  check_session_validity (get_subscriptions_handler env) session_user

/-- POST `/websocket/subscribe` as routed; `body_symbols` is the value of the
`symbols` key of the JSON body (`none` when the key is absent). -/
def subscribe_route (env : Env) (session_user : Option String)
    (body_symbols : Option (List String)) : Response × List CallEvent :=
  check_session_validity (fun u => subscribe_handler env u body_symbols) session_user

/-- POST `/websocket/unsubscribe` as routed. -/
def unsubscribe_route (env : Env) (session_user : Option String)
    (body_symbols : Option (List String)) : Response × List CallEvent :=
  check_session_validity (fun u => unsubscribe_handler env u body_symbols) session_user

/-- GET `/websocket/status` as routed. -/
def status_route (env : Env) (session_user : Option String) : Response × List CallEvent :=
  check_session_validity (status_handler env) session_user

/-- A concrete collaborator environment used by the witness theorems. -/
def testEnv : Env where
  get_api_key_for_tradingview := fun _ => some "key1"
  get_broker_name := fun _ => some "zerodha"
  enhanced_search_symbols := fun _ _ => Except.ok []
  subscribe_to_symbols := fun _ _ _ => (true, Json.str "subscribed", 200)
  unsubscribe_from_symbols := fun _ _ _ => (true, Json.str "unsubscribed", 200)
  get_websocket_subscriptions := fun _ => (true, Json.arr [], 200)
  get_websocket_status := fun _ => (true, Json.obj [], 200)

/-- A concrete collaborator environment in which every lookup fails and the
search collaborator raises; used by the failure-path witness theorems. -/
def testErrEnv : Env where
  get_api_key_for_tradingview := fun _ => none
  get_broker_name := fun _ => none
  enhanced_search_symbols := fun _ _ => Except.error "boom"
  subscribe_to_symbols := fun _ _ _ => (false, Json.null, 500)
  unsubscribe_from_symbols := fun _ _ _ => (false, Json.null, 500)
  get_websocket_subscriptions := fun _ => (false, Json.obj [("error", Json.str "down")], 503)
  get_websocket_status := fun _ => (false, Json.null, 503)

/-! ### Properties of the first-occurrence splitter -/

theorem splitFirst_eq_none (sep : Char) (l : List Char) :
    splitFirst sep l = none ↔ sep ∉ l := by
  induction l with
  | nil => simp [splitFirst]
  | cons c cs ih =>
      by_cases hc : c = sep
      · subst hc
        simp [splitFirst]
      · cases hsp : splitFirst sep cs with
        | none =>
            simp only [splitFirst, if_neg hc, hsp, List.mem_cons]
            constructor
            · intro _ hmem
              rcases hmem with h | h
              · exact hc h.symm
              · exact (ih.mp hsp) h
            · intro _
              trivial
        | some p =>
            obtain ⟨a, b⟩ := p
            simp only [splitFirst, if_neg hc, hsp, List.mem_cons]
            constructor
            · intro h
              exact absurd h (by simp)
            · intro h
              have hnot : sep ∉ cs := fun hm => h (Or.inr hm)
              have h2 := ih.mpr hnot
              rw [h2] at hsp
              exact absurd hsp (by simp)

theorem splitFirst_eq_some (sep : Char) (l : List Char) :
    ∀ a b, splitFirst sep l = some (a, b) → l = a ++ sep :: b ∧ sep ∉ a := by
  induction l with
  | nil =>
      intro a b h
      simp [splitFirst] at h
  | cons c cs ih =>
      intro a b h
      by_cases hc : c = sep
      · subst hc
        simp [splitFirst] at h
        obtain ⟨ha, hb⟩ := h
        subst ha
        subst hb
        exact ⟨rfl, by simp⟩
      · cases hsp : splitFirst sep cs with
        | none =>
            rw [splitFirst, if_neg hc, hsp] at h
            exact absurd h (by simp)
        | some p =>
            obtain ⟨a0, b0⟩ := p
            rw [splitFirst, if_neg hc, hsp] at h
            simp only [Option.some.injEq, Prod.mk.injEq] at h
            obtain ⟨ha, hb⟩ := h
            obtain ⟨hl, hmem⟩ := ih a0 b0 hsp
            subst hb
            constructor
            · rw [← ha, hl]
              rfl
            · rw [← ha]
              intro hm
              rcases List.mem_cons.mp hm with h | h
              · exact hc h.symm
              · exact hmem h

theorem parseOne_of_mem (s : String) (h : ':' ∈ s.data) :
    (parseOne s).exchange.data ++ ':' :: (parseOne s).symbol.data = s.data ∧
    ':' ∉ (parseOne s).exchange.data := by
  cases hsp : splitFirst ':' s.data with
  | none => exact absurd ((splitFirst_eq_none ':' s.data).mp hsp) (not_not.mpr h)
  | some p =>
      obtain ⟨a, b⟩ := p
      obtain ⟨hl, hmem⟩ := splitFirst_eq_some ':' s.data a b hsp
      simp only [parseOne, hsp]
      exact ⟨hl.symm, hmem⟩

theorem parseOne_of_not_mem (s : String) (h : ':' ∉ s.data) :
    parseOne s = { exchange := "NSE", symbol := s } := by
  have hsp : splitFirst ':' s.data = none := (splitFirst_eq_none ':' s.data).mpr h
  simp only [parseOne, hsp]

/-- Claim C1: the symbol-reference parser returns one (exchange, symbol) pair
per input entry, in the same order; an entry containing `':'` is split at its
first `':'` into exchange and symbol (the exchange part contains no `':'`);
an entry without `':'` maps to `('NSE', entry)`; and parsing
`["NSE:INFY", "TCS"]` yields `[("NSE", "INFY"), ("NSE", "TCS")]`. -/
theorem C1_symbol_parsing :
    (∀ l : List String, (parse_symbols l).length = l.length) ∧
    (∀ (l : List String) (i : Fin l.length),
        (parse_symbols l)[i.val]? = some (parseOne (l.get i))) ∧
    (∀ s : String, ':' ∈ s.data →
        (parseOne s).exchange.data ++ ':' :: (parseOne s).symbol.data = s.data ∧
        ':' ∉ (parseOne s).exchange.data) ∧
    (∀ s : String, ':' ∉ s.data → parseOne s = { exchange := "NSE", symbol := s }) ∧
    parse_symbols ["NSE:INFY", "TCS"] =
      [{ exchange := "NSE", symbol := "INFY" }, { exchange := "NSE", symbol := "TCS" }] := by
  refine ⟨?_, ?_, parseOne_of_mem, parseOne_of_not_mem, by decide⟩
  · intro l
    simp [parse_symbols]
  · intro l i
    simp [parse_symbols, List.getElem?_map, List.getElem?_eq_getElem i.isLt]

/-- Witness for C1: the colon and default rules applied at concrete entries. -/
theorem C1_symbol_parsing_witness :
    (':' ∈ "NSE:INFY".data) ∧
    ((parseOne "NSE:INFY").exchange.data ++ ':' :: (parseOne "NSE:INFY").symbol.data
        = "NSE:INFY".data ∧ ':' ∉ (parseOne "NSE:INFY").exchange.data) ∧
    (':' ∉ "TCS".data) ∧
    parseOne "TCS" = { exchange := "NSE", symbol := "TCS" } := by
  refine ⟨by decide, C1_symbol_parsing.2.2.1 "NSE:INFY" (by decide), by decide,
    C1_symbol_parsing.2.2.2.1 "TCS" (by decide)⟩

/-- Claim C3: a request with no session user to any session-guarded route
(`/`, `/search`, `/subscriptions`, `/status`, `/subscribe`, `/unsubscribe`)
returns status 401 and performs no collaborator call at all. -/
theorem C3_unauthenticated_401 (env : Env) (q ex : Option String)
    (body_symbols : Option (List String)) :
    (index_route none).1.status = 401 ∧ (index_route none).2 = [] ∧
    (search_route env none q ex).1.status = 401 ∧ (search_route env none q ex).2 = [] ∧
    (subscriptions_route env none).1.status = 401 ∧ (subscriptions_route env none).2 = [] ∧
    (status_route env none).1.status = 401 ∧ (status_route env none).2 = [] ∧
    (subscribe_route env none body_symbols).1.status = 401 ∧
    (subscribe_route env none body_symbols).2 = [] ∧
    (unsubscribe_route env none body_symbols).1.status = 401 ∧
    (unsubscribe_route env none body_symbols).2 = [] :=
  ⟨rfl, rfl, rfl, rfl, rfl, rfl, rfl, rfl, rfl, rfl, rfl, rfl⟩

/-- Claim C4: for a logged-in user, POST subscribe/unsubscribe with an empty
symbols list returns 400 with an error body and performs no lookup, parse or
collaborator call (the empty trace shows the short-circuit before
`_get_broker_and_parse_symbols`, where parsing lives). -/
theorem C4_empty_symbols_400 (env : Env) (user : String) (hu : user ≠ "") :
    subscribe_route env (some user) (some []) =
      ({ body := Json.obj [("error", Json.str "No symbols provided")], status := 400 }, []) ∧
    unsubscribe_route env (some user) (some []) =
      ({ body := Json.obj [("error", Json.str "No symbols provided")], status := 400 }, []) := by
  constructor <;>
    simp [subscribe_route, unsubscribe_route, check_session_validity, subscribe_handler,
      unsubscribe_handler, pyTruthy, hu]

/-- Witness for C4 at a concrete user and environment. -/
theorem C4_empty_symbols_400_witness :
    ("alice" ≠ "") ∧
    subscribe_route testEnv (some "alice") (some []) =
      ({ body := Json.obj [("error", Json.str "No symbols provided")], status := 400 }, []) :=
  ⟨by decide, (C4_empty_symbols_400 testEnv "alice" (by decide)).1⟩

/-- Claim C10: for a logged-in user, a subscribe/unsubscribe body lacking the
`symbols` key behaves exactly like an empty list: 400 with error
`No symbols provided` and no lookup or collaborator call. -/
theorem C10_missing_symbols_key_400 (env : Env) (user : String) (hu : user ≠ "") :
    subscribe_route env (some user) none =
      ({ body := Json.obj [("error", Json.str "No symbols provided")], status := 400 }, []) ∧
    unsubscribe_route env (some user) none =
      ({ body := Json.obj [("error", Json.str "No symbols provided")], status := 400 }, []) ∧
    subscribe_route env (some user) none = subscribe_route env (some user) (some []) ∧
    unsubscribe_route env (some user) none = unsubscribe_route env (some user) (some []) := by
  refine ⟨?_, ?_, rfl, rfl⟩ <;>
    simp [subscribe_route, unsubscribe_route, check_session_validity, subscribe_handler,
      unsubscribe_handler, pyTruthy, hu]

/-- Witness for C10 at a concrete user and environment. -/
theorem C10_missing_symbols_key_400_witness :
    ("bob" ≠ "") ∧
    subscribe_route testEnv (some "bob") none =
      ({ body := Json.obj [("error", Json.str "No symbols provided")], status := 400 }, []) :=
  ⟨by decide, (C10_missing_symbols_key_400 testEnv "bob" (by decide)).1⟩

/-- Claim C5: for a logged-in user and non-empty symbols list, a missing API
key yields 400 `API Key not found`, and a key whose broker lookup fails
yields 400 `Broker not found`, on both subscribe and unsubscribe; the exact
traces show the subscribe/unsubscribe collaborator is never called. -/
theorem C5_resolution_failure_400 (env : Env) (user : String) (hu : user ≠ "")
    (symbols : List String) (hs : symbols ≠ []) :
    (env.get_api_key_for_tradingview user = none →
      subscribe_route env (some user) (some symbols) =
        ({ body := Json.obj [("error", Json.str "API Key not found")], status := 400 },
         [CallEvent.getApiKeyForTradingview user]) ∧
      unsubscribe_route env (some user) (some symbols) =
        ({ body := Json.obj [("error", Json.str "API Key not found")], status := 400 },
         [CallEvent.getApiKeyForTradingview user])) ∧
    (∀ key, env.get_api_key_for_tradingview user = some key → key ≠ "" →
      env.get_broker_name key = none →
      subscribe_route env (some user) (some symbols) =
        ({ body := Json.obj [("error", Json.str "Broker not found")], status := 400 },
         [CallEvent.getApiKeyForTradingview user, CallEvent.getBrokerName key]) ∧
      unsubscribe_route env (some user) (some symbols) =
        ({ body := Json.obj [("error", Json.str "Broker not found")], status := 400 },
         [CallEvent.getApiKeyForTradingview user, CallEvent.getBrokerName key])) := by
  constructor
  · intro hkey
    constructor <;>
      simp [subscribe_route, unsubscribe_route, check_session_validity, subscribe_handler,
        unsubscribe_handler, _get_broker_and_parse_symbols, pyTruthy, hu, hs, hkey]
  · intro key hkey hknz hbroker
    constructor <;>
      simp [subscribe_route, unsubscribe_route, check_session_validity, subscribe_handler,
        unsubscribe_handler, _get_broker_and_parse_symbols, pyTruthy, hu, hs, hkey, hknz,
        hbroker]

/-- Witness for C5: the missing-API-key branch at a concrete input. -/
theorem C5_resolution_failure_400_witness :
    ("alice" ≠ "") ∧ (["TCS"] ≠ ([] : List String)) ∧
    testErrEnv.get_api_key_for_tradingview "alice" = none ∧
    subscribe_route testErrEnv (some "alice") (some ["TCS"]) =
      ({ body := Json.obj [("error", Json.str "API Key not found")], status := 400 },
       [CallEvent.getApiKeyForTradingview "alice"]) :=
  ⟨by decide, by decide, rfl,
   ((C5_resolution_failure_400 testErrEnv "alice" (by decide) ["TCS"] (by decide)).1 rfl).1⟩

/-- Claim C2: for a logged-in user, non-empty symbols and successful broker
resolution, subscribe and unsubscribe answer with exactly the payload and
status code returned by the collaborator, whatever its success flag. -/
theorem C2_mirror_collaborator (env : Env) (user : String) (hu : user ≠ "")
    (symbols : List String) (hs : symbols ≠ [])
    (key : String) (hkey : env.get_api_key_for_tradingview user = some key) (hknz : key ≠ "")
    (broker : String) (hbroker : env.get_broker_name key = some broker) (hbnz : broker ≠ "") :
    (subscribe_route env (some user) (some symbols)).1 =
      { body := (env.subscribe_to_symbols user broker (parse_symbols symbols)).2.1,
        status := (env.subscribe_to_symbols user broker (parse_symbols symbols)).2.2 } ∧
    (unsubscribe_route env (some user) (some symbols)).1 =
      { body := (env.unsubscribe_from_symbols user broker (parse_symbols symbols)).2.1,
        status := (env.unsubscribe_from_symbols user broker (parse_symbols symbols)).2.2 } := by
  constructor <;>
    simp [subscribe_route, unsubscribe_route, check_session_validity, subscribe_handler,
      unsubscribe_handler, _get_broker_and_parse_symbols, pyTruthy, hu, hs, hkey, hknz,
      hbroker, hbnz]

/-- Witness for C2 at a concrete environment whose resolution succeeds. -/
theorem C2_mirror_collaborator_witness :
    ("alice" ≠ "") ∧ (["NSE:INFY"] ≠ ([] : List String)) ∧
    testEnv.get_api_key_for_tradingview "alice" = some "key1" ∧ ("key1" ≠ "") ∧
    testEnv.get_broker_name "key1" = some "zerodha" ∧ ("zerodha" ≠ "") ∧
    (subscribe_route testEnv (some "alice") (some ["NSE:INFY"])).1 =
      { body := (testEnv.subscribe_to_symbols "alice" "zerodha"
                   (parse_symbols ["NSE:INFY"])).2.1,
        status := (testEnv.subscribe_to_symbols "alice" "zerodha"
                     (parse_symbols ["NSE:INFY"])).2.2 } :=
  ⟨by decide, by decide, rfl, by decide, rfl, by decide,
   (C2_mirror_collaborator testEnv "alice" (by decide) ["NSE:INFY"] (by decide) "key1" rfl
     (by decide) "zerodha" rfl (by decide)).1⟩

/-- Claim C7: for a logged-in user, a search with `q` equal to the empty
string answers a JSON empty array with status 200 and performs no
collaborator call. -/
theorem C7_empty_query_no_search (env : Env) (user : String) (ex : Option String) :
    search_route env (some user) (some "") ex =
      ({ body := Json.arr [], status := 200 }, []) := by
  simp [search_route, check_session_validity, search_handler, strip]

/-- Claim C9: for a logged-in user, a search whose `q` consists only of
whitespace is stripped to the empty string and treated exactly like an empty
query: empty JSON array, status 200, no collaborator call. -/
theorem C9_whitespace_query_no_search (env : Env) (user : String) (ex : Option String)
    (q : String) (hws : ∀ c ∈ q.data, pyIsSpace c = true) :
    strip q = "" ∧
    search_route env (some user) (some q) ex =
      ({ body := Json.arr [], status := 200 }, []) := by
  have h1 : q.data.dropWhile pyIsSpace = [] := List.dropWhile_eq_nil_iff.mpr hws
  have hstrip : strip q = "" := by
    simp [strip, h1]
  exact ⟨hstrip, by simp [search_route, check_session_validity, search_handler, hstrip]⟩

/-- Witness for C9 at the one-space query. -/
theorem C9_whitespace_query_no_search_witness :
    (∀ c ∈ " \t ".data, pyIsSpace c = true) ∧
    strip " \t " = "" ∧
    search_route testEnv (some "alice") (some " \t ") none =
      ({ body := Json.arr [], status := 200 }, []) :=
  ⟨by decide,
   (C9_whitespace_query_no_search testEnv "alice" none " \t " (by decide)).1,
   (C9_whitespace_query_no_search testEnv "alice" none " \t " (by decide)).2⟩

/-- Claim C6: for a logged-in user and a query that survives stripping, an
exception from the search collaborator yields 500 with a JSON body whose
`error` field carries the exception message, and the error is logged. -/
theorem C6_search_exception_500 (env : Env) (user : String) (q : String) (ex : Option String)
    (e : String) (hq : strip q ≠ "")
    (he : env.enhanced_search_symbols (strip q) ex = Except.error e) :
    search_route env (some user) (some q) ex =
      ({ body := Json.obj [("error", Json.str e)], status := 500 },
       [CallEvent.enhancedSearchSymbols (strip q) ex,
        CallEvent.logError ("Error searching symbols: " ++ e)]) := by
  simp [search_route, check_session_validity, search_handler, hq, he]

/-- Witness for C6 at a concrete raising environment. -/
theorem C6_search_exception_500_witness :
    (strip "INFY" ≠ "") ∧
    testErrEnv.enhanced_search_symbols (strip "INFY") none = Except.error "boom" ∧
    search_route testErrEnv (some "alice") (some "INFY") none =
      ({ body := Json.obj [("error", Json.str "boom")], status := 500 },
       [CallEvent.enhancedSearchSymbols (strip "INFY") none,
        CallEvent.logError ("Error searching symbols: " ++ "boom")]) :=
  ⟨by decide, rfl,
   C6_search_exception_500 testErrEnv "alice" "INFY" none "boom" (by decide) rfl⟩

/-- Claim C8: for a logged-in user, the subscriptions route returns the
collaborator payload as body, with status 200 on reported success and the
collaborator status code on reported failure; with no session user the route
answers 401. -/
theorem C8_subscriptions_passthrough (env : Env) (user : String) (hu : user ≠ "") :
    ((env.get_websocket_subscriptions user).1 = true →
      subscriptions_route env (some user) =
        ({ body := (env.get_websocket_subscriptions user).2.1, status := 200 },
         [CallEvent.getWebsocketSubscriptions user])) ∧
    ((env.get_websocket_subscriptions user).1 = false →
      subscriptions_route env (some user) =
        ({ body := (env.get_websocket_subscriptions user).2.1,
           status := (env.get_websocket_subscriptions user).2.2 },
         [CallEvent.getWebsocketSubscriptions user])) ∧
    (subscriptions_route env none).1.status = 401 := by
  refine ⟨?_, ?_, rfl⟩ <;>
    intro h <;>
    simp [subscriptions_route, check_session_validity, get_subscriptions_handler, pyTruthy,
      hu, h]

/-- Witness for C8: success branch at a concrete environment. -/
theorem C8_subscriptions_passthrough_witness :
    ("alice" ≠ "") ∧ (testEnv.get_websocket_subscriptions "alice").1 = true ∧
    subscriptions_route testEnv (some "alice") =
      ({ body := (testEnv.get_websocket_subscriptions "alice").2.1, status := 200 },
       [CallEvent.getWebsocketSubscriptions "alice"]) :=
  ⟨by decide, rfl, (C8_subscriptions_passthrough testEnv "alice" (by decide)).1 rfl⟩
